import Mathlib

/-!
Shallow embedding of the WhatsApp Print Manager Electron main process
(main.js) for verification of its natural-language specification.

Conventions of the embedding:
* JavaScript strings that may be `null`/`undefined`/`""` are modelled as
  `String` with `""` playing the role of every falsy value; the JS
  short-circuit `a || b` becomes `jsOr a b`.
* Timestamps are `Nat` (seconds since epoch); the code's `(x.timestamp || 0)`
  is the identity under this modelling.
* The filesystem is a list of existing paths; `fs.existsSync` is membership,
  `fs.writeFileSync` conses the path, `fs.unlinkSync` erases it.
* The whatsapp-web.js backend is an oracle record `Env`: chat listing,
  chat lookup, contact lookup, media download, message deletion and the
  `mime-types` extension lookup are opaque functions supplied by the
  environment, exactly as the code consumes them.
* `Array.prototype.sort` with a numeric comparator is a stable sort; it is
  embedded as an insertion sort (`stableSortAscBy` / `stableSortDescBy`)
  that keeps the original relative order of equal keys.
-/

/-- JS short-circuit `a || b` on strings, where `""` stands for every falsy
string value (null, undefined, empty). -/
def jsOr (a b : String) : String := if a = "" then b else a

/-- `messageId.replace(/[^a-zA-Z0-9]/g, "_")`: every non-alphanumeric
character becomes an underscore. -/
def sanitizeId (s : String) : String :=
  s.map (fun c => if c.isAlphanum then c else '_')

/-- `path.join(dir, file)` with an abstract separator. -/
def pathJoin (d f : String) : String := d ++ "/" ++ f

/-- Stable ascending insertion: `x` goes after every already-placed element
whose key is `≤ key x`, matching a stable JS sort with comparator
`(a, b) => key a - key b`. -/
def insertAscBy {α : Type} (key : α → Nat) (x : α) : List α → List α
  | [] => [x]
  | y :: ys => if key y ≤ key x then y :: insertAscBy key x ys else x :: y :: ys

/-- Stable ascending sort by a numeric key (JS `arr.sort((a,b) => ka - kb)`). -/
def stableSortAscBy {α : Type} (key : α → Nat) (l : List α) : List α :=
  l.foldl (fun acc x => insertAscBy key x acc) []

/-- Stable descending insertion: `x` goes after every already-placed element
whose key is `≥ key x`. -/
def insertDescBy {α : Type} (key : α → Nat) (x : α) : List α → List α
  | [] => [x]
  | y :: ys => if key x ≤ key y then y :: insertDescBy key x ys else x :: y :: ys

/-- Stable descending sort by a numeric key (JS `arr.sort((a,b) => kb - ka)`). -/
def stableSortDescBy {α : Type} (key : α → Nat) (l : List α) : List α :=
  l.foldl (fun acc x => insertDescBy key x acc) []

/-- A whatsapp-web.js message as the main process reads it: `id._serialized`,
`timestamp`, `hasMedia`, `type`, `body`, and the `_data` fields
`fileName` / `mimetype` / `size` (with `""` / `0` for absent values). -/
structure Msg where
  id : String
  timestamp : Nat
  hasMedia : Bool
  type : String
  body : String
  fileName : String
  mimetype : String
  size : Nat
deriving Repr, DecidableEq

/-- A backend chat: `id._serialized`, `id.user`, `name`, `isGroup`,
`unreadCount`, `timestamp`, plus the message window `fetchMessages` draws
from (in the backend's retrieval order). -/
structure Chat where
  serializedId : String
  user : String
  name : String
  isGroup : Bool
  unreadCount : Nat
  timestamp : Nat
  messages : List Msg
deriving Repr, DecidableEq

/-- The payload of `message.downloadMedia()`. -/
structure Media where
  data : String
  mimetype : String
  filename : String
deriving Repr, DecidableEq

/-- A contact as consumed by the handlers (`pushname`, `name`, `number`). -/
structure Contact where
  pushname : String
  name : String
  number : String
deriving Repr, DecidableEq

/-- `client.info`: own profile data. -/
structure ClientInfo where
  pushname : String
  widUser : String
  widSerialized : String
deriving Repr, DecidableEq

/-- The whatsapp-web.js client plus the other ambient collaborators
(mime lookup, clock, downloads directory), consumed as opaque oracles.
`downloadMedia` distinguishes a rejected promise (`none`) from a resolved
null (`some none`) from media (`some (some m)`); likewise `deleteMsg`. -/
structure Env where
  chats : List Chat
  getChatById : String → Option Chat
  getChatOfMsg : String → Option Chat
  getContactOfMsg : String → Option Contact
  getContactOfChat : String → Option Contact
  getProfilePic : String → Option String
  downloadMedia : String → Option (Option Media)
  deleteMsg : String → Option Unit
  mimeExt : String → String
  info : ClientInfo
  nowMs : Nat
  downloadsDir : String

/-- The filesystem as the set of existing paths. -/
abbrev FS := List String

/-- `fs.existsSync`. -/
def fsExists (fs : FS) (p : String) : Bool := fs.contains p

/-- `chat.fetchMessages(\x7b limit \x7d)`: the bounded recent-message
window, modelled as a prefix of the backend's retrieval-ordered store. -/
def fetchMessages (c : Chat) (limit : Nat) : List Msg := c.messages.take limit

/-- `mime.extension(mt || "application/octet-stream") || "bin"`. -/
def defaultExt (env : Env) (mt : String) : String :=
  jsOr (env.mimeExt (jsOr mt "application/octet-stream")) "bin"

/-- The file name `get-chat-files` assigns a media message
(main.js 496-513): the `_data.fileName` when truthy, otherwise the
synthesized `{type}_{timestamp}.{ext}`. -/
def msgFileName (env : Env) (m : Msg) : String :=
  if m.fileName = "" then
    (jsOr m.type "file") ++ "_" ++ toString m.timestamp ++ "." ++ defaultExt env m.mimetype
  else m.fileName

/-- The file name the incoming-`message` handler assigns before
auto-downloading (main.js 191-201); the same computation as
`msgFileName`, embedded separately because it is a separate code site. -/
def autoDownloadFileName (env : Env) (m : Msg) : String :=
  if m.fileName = "" then
    (jsOr m.type "file") ++ "_" ++ toString m.timestamp ++ "." ++ defaultExt env m.mimetype
  else m.fileName

/-- `contact.pushname || contact.name || contact.number || "Unknown"` with
a thrown lookup degrading to `"Unknown"` (main.js 473-478). -/
def senderName (env : Env) (m : Msg) : String :=
  match env.getContactOfMsg m.id with
  | some ct => jsOr (jsOr (jsOr ct.pushname ct.name) ct.number) "Unknown"
  | none => "Unknown"

/-- One entry of the `files` array built by `get-chat-files`
(main.js 480-528). `localPath` is `""` for JS `null`. -/
structure MediaInfo where
  messageId : String
  chatId : String
  sender : String
  timestamp : Nat
  type : String
  caption : String
  fileName : String
  mimeType : String
  fileSize : Nat
  isDownloaded : Bool
  localPath : String
  isUnread : Bool
deriving Repr, DecidableEq

/-- The unread-id set of `get-chat-files` (main.js 459-468): sort the
window ascending by timestamp (stable), and when `unreadCount > 0` take the
JS `slice(-unreadCount)`, i.e. drop all but the last `unreadCount`. -/
def unreadIdsOf (msgs : List Msg) (unreadCount : Nat) : List String :=
  let sorted := stableSortAscBy Msg.timestamp msgs
  if unreadCount > 0 then
    (sorted.drop (sorted.length - unreadCount)).map Msg.id
  else []

/-- The `mediaInfo` record `get-chat-files` builds for one media message
(main.js 480-528), including the `isDownloaded` check against the
deterministic `{sanitizedMessageId}_{fileName}` path. -/
def mediaInfoOf (env : Env) (fs : FS) (chatId : String) (uIds : List String)
    (m : Msg) : MediaInfo :=
  let fn := msgFileName env m
  let ep := pathJoin env.downloadsDir (sanitizeId m.id ++ "_" ++ fn)
  { messageId := m.id
    chatId := chatId
    sender := senderName env m
    timestamp := m.timestamp
    type := m.type
    caption := m.body
    fileName := fn
    mimeType := m.mimetype
    fileSize := m.size
    isDownloaded := fsExists fs ep
    localPath := if fsExists fs ep then ep else ""
    isUnread := uIds.contains m.id }

/-- The value of a successful `get-chat-files` call. -/
structure FilesResult where
  files : List MediaInfo
  unreadCount : Nat
deriving Repr, DecidableEq

/-- The body of `get-chat-files` after the chat lookup (main.js 454-534):
window of 50, unread derivation, media filter, downloaded check, sort
descending by timestamp. -/
def getChatFilesCore (env : Env) (fs : FS) (chatId : String) (c : Chat) :
    FilesResult :=
  let messages := fetchMessages c 50
  let uIds := unreadIdsOf messages c.unreadCount
  let files := (messages.filter (fun m => m.hasMedia)).map
    (mediaInfoOf env fs chatId uIds)
  { files := stableSortDescBy MediaInfo.timestamp files
    unreadCount := c.unreadCount }

/-- Uniform result of one IPC handler invocation: the value or error
returned to the renderer, the backend calls it issued, and the filesystem
it leaves behind. -/
structure HandlerOut (α : Type) where
  result : Except String α
  calls : List String
  fsOut : FS

/-- `get-chat-files` (main.js 450-539) including the readiness gate. -/
def getChatFiles (env : Env) (ready : Bool) (fs : FS) (chatId : String) :
    HandlerOut FilesResult :=
  if ready then
    match env.getChatById chatId with
    | none => ⟨.error "Chat not found", ["getChatById"], fs⟩
    | some c =>
      ⟨.ok (getChatFilesCore env fs chatId c),
        "getChatById" :: "fetchMessages" ::
          ((fetchMessages c 50).filter (fun m => m.hasMedia)).map
            (fun _ => "getContact"),
        fs⟩
  else ⟨.error "WhatsApp not ready", [], fs⟩

/-- The value of a successful `download-file` call. -/
structure DownloadResult where
  localPath : String
  fileName : String
  size : Nat
deriving Repr, DecidableEq

/-- `download-file` (main.js 542-600): gate, chat lookup, find in the
100-message window, media check, download, filename resolution
(argument, else `media.filename`, else `file_{Date.now()}.{ext}`),
write to `{downloadsDir}/{sanitizedMessageId}_{finalFileName}`.
The byte size is abstracted as the length of the stored payload string. -/
def downloadFile (env : Env) (ready : Bool) (fs : FS)
    (messageId chatId fileName : String) : HandlerOut DownloadResult :=
  if ready then
    match env.getChatById chatId with
    | none => ⟨.error "Chat not found", ["getChatById"], fs⟩
    | some chat =>
      match (fetchMessages chat 100).find? (fun m => m.id == messageId) with
      | none => ⟨.error "Message not found", ["getChatById", "fetchMessages"], fs⟩
      | some msg =>
        if msg.hasMedia then
          match env.downloadMedia messageId with
          | none =>
            ⟨.error "download error", ["getChatById", "fetchMessages", "downloadMedia"], fs⟩
          | some none =>
            ⟨.error "Failed to download media",
              ["getChatById", "fetchMessages", "downloadMedia"], fs⟩
          | some (some media) =>
            let f1 := jsOr fileName media.filename
            let finalFileName :=
              if f1 = "" then
                "file_" ++ toString env.nowMs ++ "." ++ jsOr (env.mimeExt media.mimetype) "bin"
              else f1
            let localPath :=
              pathJoin env.downloadsDir (sanitizeId messageId ++ "_" ++ finalFileName)
            ⟨.ok ⟨localPath, finalFileName, media.data.length⟩,
              ["getChatById", "fetchMessages", "downloadMedia"], localPath :: fs⟩
        else ⟨.error "Message has no media", ["getChatById", "fetchMessages"], fs⟩
  else ⟨.error "WhatsApp not ready", [], fs⟩

/-- `contact.pushname || ""` for a chat (main.js 352-365), `""` when the
lookup times out or throws. -/
def chatWhatsappName (env : Env) (c : Chat) : String :=
  match env.getContactOfChat c.serializedId with
  | some ct => ct.pushname
  | none => ""

/-- `savedName` after the fallback of main.js 346-359: the chat name unless
empty or equal to the contact number, in which case `contact.name`. -/
def chatSavedName (env : Env) (c : Chat) : String :=
  let contactNumber := jsOr c.user c.serializedId
  match env.getContactOfChat c.serializedId with
  | some ct => if c.name = "" ∨ c.name = contactNumber then ct.name else c.name
  | none => c.name

/-- Avatar URL (main.js 360-365), `""` for null/timeout. -/
def chatProfilePic (env : Env) (c : Chat) : String :=
  match env.getContactOfChat c.serializedId with
  | some _ => (env.getProfilePic c.serializedId).getD ""
  | none => ""

/-- One-line preview of the latest message (main.js 370-383). -/
def chatLastMessage (c : Chat) : String :=
  match fetchMessages c 1 with
  | [] => ""
  | m :: _ => if m.hasMedia then "[" ++ m.type ++ "]" else m.body.take 50

/-- One entry of the `get-unread-chats` result (main.js 388-398). -/
structure ChatListing where
  id : String
  name : String
  number : String
  whatsappName : String
  unreadCount : Nat
  isGroup : Bool
  profilePicUrl : String
  timestamp : Nat
  lastMessage : String
deriving Repr, DecidableEq

/-- The enriched listing `get-unread-chats` builds per chat
(main.js 343-399), one helper per field so projections reduce. -/
def chatListingOf (env : Env) (c : Chat) : ChatListing :=
  { id := c.serializedId
    name := jsOr (jsOr (chatSavedName env c) (chatWhatsappName env c))
      (jsOr c.user c.serializedId)
    number := jsOr c.user c.serializedId
    whatsappName := chatWhatsappName env c
    unreadCount := c.unreadCount
    isGroup := c.isGroup
    profilePicUrl := chatProfilePic env c
    timestamp := c.timestamp
    lastMessage := chatLastMessage c }

/-- `get-unread-chats` (main.js 330-409): gate, `getChats`, empty
short-circuit, broadcast exclusion, sort descending, per-chat enrichment,
final sort descending.  Despite its name the handler applies no
unread-count or recency filter (the comment at main.js 337 reads
"Show ALL chats (excluding status at broadcast)"). -/
def getUnreadChats (env : Env) (ready : Bool) (fs : FS) :
    HandlerOut (List ChatListing) :=
  if ready then
    let chats := env.chats
    if chats.isEmpty then ⟨.ok [], ["getChats"], fs⟩
    else
      let allChats := stableSortDescBy Chat.timestamp
        (chats.filter (fun c => c.serializedId != "status@broadcast"))
      let result := allChats.map (chatListingOf env)
      ⟨.ok (stableSortDescBy ChatListing.timestamp result),
        "getChats" :: allChats.map (fun _ => "getContact"), fs⟩
  else ⟨.error "WhatsApp not ready", [], fs⟩

/-- What the claim says `get-unread-chats` returns, written from the claim
text for comparison with the code embedding: only chats with
`unreadCount > 0` or activity inside the trailing 24-hour window, the
broadcast pseudo-chat excluded, sorted descending. -/
def claimedRecentChats (env : Env) (nowSec : Nat) : List Chat :=
  stableSortDescBy Chat.timestamp
    ((env.chats.filter
        (fun c => decide (0 < c.unreadCount) || decide (nowSec - 86400 < c.timestamp))).filter
      (fun c => c.serializedId != "status@broadcast"))

/-- One entry of the `get-all-chats` result (main.js 433-440). -/
structure AllChatEntry where
  id : String
  name : String
  number : String
  unreadCount : Nat
  isGroup : Bool
  timestamp : Nat
deriving Repr, DecidableEq

/-- `get-all-chats` (main.js 412-447): gate, broadcast exclusion, sort
descending, top-`limit`, light enrichment. -/
def getAllChats (env : Env) (ready : Bool) (fs : FS) (limit : Nat) :
    HandlerOut (List AllChatEntry) :=
  if ready then
    let sorted := (stableSortDescBy Chat.timestamp
      (env.chats.filter (fun c => c.serializedId != "status@broadcast"))).take limit
    let result := sorted.map (fun c =>
      let fallback := jsOr c.name "Unknown"
      let contactName :=
        match env.getContactOfChat c.serializedId with
        | some ct => jsOr (jsOr (jsOr ct.pushname ct.name) ct.number) fallback
        | none => fallback
      { id := c.serializedId
        name := contactName
        number := jsOr c.user c.serializedId
        unreadCount := c.unreadCount
        isGroup := c.isGroup
        timestamp := c.timestamp : AllChatEntry })
    ⟨.ok result, "getChats" :: sorted.map (fun _ => "getContact"), fs⟩
  else ⟨.error "WhatsApp not ready", [], fs⟩

/-- One entry of the `download-all-files` result (main.js 649-657). -/
structure DlAllItem where
  messageId : String
  success : Bool
  error : String
  localPath : String
  fileName : String
  size : Nat
deriving Repr, DecidableEq

/-- The sequential download loop of `download-all-files`
(main.js 612-659), threading the filesystem. -/
def dlAllLoop (env : Env) : FS → List Msg → (List DlAllItem × FS)
  | fs, [] => ([], fs)
  | fs, m :: rest =>
    match env.downloadMedia m.id with
    | none =>
      let (rs, fs2) := dlAllLoop env fs rest
      (⟨m.id, false, "download error", "", "", 0⟩ :: rs, fs2)
    | some none =>
      let (rs, fs2) := dlAllLoop env fs rest
      (⟨m.id, false, "Failed to download", "", "", 0⟩ :: rs, fs2)
    | some (some media) =>
      let f1 := jsOr media.filename
        (jsOr m.fileName
          ((jsOr m.type "file") ++ "_" ++ toString m.timestamp ++ "."
            ++ jsOr (env.mimeExt media.mimetype) "bin"))
      let lp := pathJoin env.downloadsDir (sanitizeId m.id ++ "_" ++ f1)
      let (rs, fs2) := dlAllLoop env (lp :: fs) rest
      (⟨m.id, true, "", lp, f1, media.data.length⟩ :: rs, fs2)

/-- `download-all-files` (main.js 603-666). -/
def downloadAllFiles (env : Env) (ready : Bool) (fs : FS) (chatId : String) :
    HandlerOut (List DlAllItem) :=
  if ready then
    match env.getChatById chatId with
    | none => ⟨.error "Chat not found", ["getChatById"], fs⟩
    | some chat =>
      let mediaMessages := (fetchMessages chat 100).filter (fun m => m.hasMedia)
      let out := dlAllLoop env fs mediaMessages
      ⟨.ok out.1,
        "getChatById" :: "fetchMessages" :: mediaMessages.map (fun _ => "downloadMedia"),
        out.2⟩
  else ⟨.error "WhatsApp not ready", [], fs⟩

/-- `mark-chat-read` (main.js 871-880). -/
def markChatRead (env : Env) (ready : Bool) (fs : FS) (chatId : String) :
    HandlerOut Unit :=
  if ready then
    match env.getChatById chatId with
    | none => ⟨.error "Chat not found", ["getChatById"], fs⟩
    | some _ => ⟨.ok (), ["getChatById", "sendSeen"], fs⟩
  else ⟨.error "WhatsApp not ready", [], fs⟩

/-- The value of a successful `get-profile-info` call. -/
structure ProfileInfo where
  name : String
  number : String
  profilePicUrl : String
deriving Repr, DecidableEq

/-- `get-profile-info` (main.js 902-928); the gate is
`!isClientReady || !whatsappClient`, i.e. it proceeds only when both
the readiness flag and the client handle are set. -/
def getProfileInfo (env : Env) (ready clientExists : Bool) (fs : FS) :
    HandlerOut ProfileInfo :=
  if ready && clientExists then
    ⟨.ok
        { name := jsOr env.info.pushname "Unknown"
          number := env.info.widUser
          profilePicUrl := (env.getProfilePic env.info.widSerialized).getD "" },
      ["getProfilePicUrl"], fs⟩
  else ⟨.error "WhatsApp not ready", [], fs⟩

/-- One entry of the local-deletion pass of `delete-files`
(main.js 821-832); `error` is `""` on success. -/
structure FileDelRes where
  filePath : String
  success : Bool
  error : String
deriving Repr, DecidableEq

/-- One entry of the WhatsApp-side pass of `delete-files`
(main.js 841-861); the chat-level failure entry carries `messageId = ""`. -/
structure WaDelRes where
  messageId : String
  success : Bool
  error : String
deriving Repr, DecidableEq

/-- Pass 1 of `delete-files` (main.js 821-832): unlink each path that
exists, record "File not found on disk" otherwise, threading the
filesystem. -/
def deleteLocalPass : FS → List String → (List FileDelRes × FS)
  | fs, [] => ([], fs)
  | fs, p :: ps =>
    if fsExists fs p then
      let out := deleteLocalPass (fs.erase p) ps
      (⟨p, true, ""⟩ :: out.1, out.2)
    else
      let out := deleteLocalPass fs ps
      (⟨p, false, "File not found on disk"⟩ :: out.1, out.2)

/-- Pass 2 of `delete-files` (main.js 834-862): only when the session is
ready and both `chatId` and a non-empty `messageIds` are supplied, look
each id up in the 100-message window and delete it. -/
def deleteWaPass (env : Env) (ready : Bool) (chatId : String)
    (messageIds : List String) : List WaDelRes :=
  if ready && chatId != "" && !messageIds.isEmpty then
    match env.getChatById chatId with
    | none => [⟨"", false, "chat error"⟩]
    | some chat =>
      let messages := fetchMessages chat 100
      messageIds.map (fun mid =>
        match messages.find? (fun m => m.id == mid) with
        | some _ =>
          match env.deleteMsg mid with
          | some _ => ⟨mid, true, ""⟩
          | none => ⟨mid, false, "delete failed"⟩
        | none => ⟨mid, false, "Message not found in chat"⟩)
  else []

/-- The `{results, waResults}` value of `delete-files`. -/
structure DeleteFilesOut where
  results : List FileDelRes
  waResults : List WaDelRes
  fsOut : FS
deriving Repr, DecidableEq

/-- `delete-files` (main.js 815-866): the local pass runs unconditionally
(no readiness gate), then the WhatsApp-side pass. -/
def deleteFiles (env : Env) (ready : Bool) (fs : FS)
    (filePaths messageIds : List String) (chatId : String) : DeleteFilesOut :=
  let localOut := deleteLocalPass fs filePaths
  { results := localOut.1
    waResults := deleteWaPass env ready chatId messageIds
    fsOut := localOut.2 }

/-- The `whatsapp:new-message` payload built by the incoming-`message`
handler (main.js 175-220); media-only fields default to `""`/`0`/`false`
when the message has no media. -/
structure NewMessageData where
  chatId : String
  chatName : String
  contactNumber : String
  isGroup : Bool
  unreadCount : Nat
  messageId : String
  hasMedia : Bool
  type : String
  body : String
  timestamp : Nat
  sender : String
  fileName : String
  mimeType : String
  fileSize : Nat
  autoDownloaded : Bool
  localPath : String
deriving Repr, DecidableEq

/-- Renderer-bound notifications of the `message` handler. -/
inductive MsgEmit
  | newMessage (d : NewMessageData)
deriving Repr, DecidableEq

/-- The incoming-`message` handler (main.js 165-232): resolve chat and
contact (a throw anywhere in the outer `try` suppresses the
notification), for media gather file info, attempt the auto-download
(its own `try`: a rejected or null download is swallowed), then send
`whatsapp:new-message`.  Returns the filesystem left behind and the
emitted notifications. -/
def messageHandler (env : Env) (fs : FS) (m : Msg) : FS × List MsgEmit :=
  match env.getChatOfMsg m.id, env.getContactOfMsg m.id with
  | some chat, some ct =>
    let contactName := jsOr (jsOr (jsOr ct.pushname ct.name) ct.number) "Unknown"
    let base : NewMessageData :=
      { chatId := chat.serializedId
        chatName := jsOr chat.name contactName
        contactNumber := jsOr chat.user chat.serializedId
        isGroup := chat.isGroup
        unreadCount := chat.unreadCount
        messageId := m.id
        hasMedia := m.hasMedia
        type := m.type
        body := m.body
        timestamp := m.timestamp
        sender := contactName
        fileName := ""
        mimeType := ""
        fileSize := 0
        autoDownloaded := false
        localPath := "" }
    if m.hasMedia then
      let fn := autoDownloadFileName env m
      let d1 := { base with fileName := fn, mimeType := m.mimetype, fileSize := m.size }
      match env.downloadMedia m.id with
      | some (some media) =>
        let f1 := jsOr fn media.filename
        let finalFileName :=
          if f1 = "" then
            "file_" ++ toString env.nowMs ++ "." ++ jsOr (env.mimeExt media.mimetype) "bin"
          else f1
        let lp := pathJoin env.downloadsDir (sanitizeId m.id ++ "_" ++ finalFileName)
        (lp :: fs, [.newMessage { d1 with autoDownloaded := true, localPath := lp }])
      | some none => (fs, [.newMessage d1])
      | none => (fs, [.newMessage d1])
    else (fs, [.newMessage base])
  | _, _ => (fs, [])

/-- Renderer-bound effects of the lifecycle event handlers. -/
inductive UiEvent
  | status (s : String)
  | uiError (s : String)
  | reinitCall
deriving Repr, DecidableEq

/-- The `disconnected` handler (main.js 152-156): takes the current
readiness flag, returns the new flag and the emissions. -/
def onDisconnected (isClientReady : Bool) : Bool × List UiEvent :=
  (false, [.status "disconnected"])

/-- The `auth_failure` handler (main.js 159-162): logs and emits the
status; it does not touch the readiness flag. -/
def onAuthFailure (isClientReady : Bool) : Bool × List UiEvent :=
  (isClientReady, [.status "auth_failure"])

/-- What one initialization attempt does, as the retry machinery sees it:
it either fails with no lifecycle event observed, fails after some event
fired, or completes. -/
inductive AttemptOutcome
  | failNoEvent
  | failWithEvent
  | ok
deriving Repr, DecidableEq

/-- Aggregate trace of a `startClient` retry sequence. -/
structure SupRun where
  attemptsUsed : Nat
  authClears : Nat
  retryingEmits : Nat
  errorEmits : Nat
  succeeded : Bool
deriving Repr, DecidableEq

/-- The `startClient`/`doRetry` recursion of `initWhatsApp`
(main.js 243-315), driven by the outcome of each attempt: a failing
attempt runs `doRetry`, which when `attempt < 3` clears the auth-storage
directory if and only if no event was received on that attempt, emits
`retrying`, and re-invokes with `attempt + 1`; on the third attempt it
emits the terminal `error` instead. -/
def runInit (attempt : Nat) : List AttemptOutcome → SupRun
  | [] => ⟨0, 0, 0, 0, false⟩
  | o :: rest =>
    match o with
    | .ok => ⟨1, 0, 0, 0, true⟩
    | .failNoEvent =>
      if attempt < 3 then
        let r := runInit (attempt + 1) rest
        ⟨r.attemptsUsed + 1, r.authClears + 1, r.retryingEmits + 1, r.errorEmits, r.succeeded⟩
      else ⟨1, 0, 0, 1, false⟩
    | .failWithEvent =>
      if attempt < 3 then
        let r := runInit (attempt + 1) rest
        ⟨r.attemptsUsed + 1, r.authClears, r.retryingEmits + 1, r.errorEmits, r.succeeded⟩
      else ⟨1, 0, 0, 1, false⟩

/-- `INIT_TIMEOUT_MS` (main.js 292). -/
def INIT_TIMEOUT_MS : Nat := 45000

/-- The per-`startClient` closure state: the attempt number, the
`eventReceived` flag set by the once-listeners on qr / authenticated /
ready / auth_failure, the `retryTriggered` single-flight flag of
`doRetry`, and whether a `doRetry` for this frame is parked at its 2 s
grace sleep. -/
structure Frame where
  attempt : Nat
  eventReceived : Bool
  retryTriggered : Bool
  retryPending : Bool
deriving Repr, DecidableEq

/-- Interleaving state of the supervisor: one `Frame` per `startClient`
invocation (creation order), the liveness of the client currently held by
the module-level `whatsappClient` variable, the number of replaced but
never-destroyed (orphaned) clients still alive, and the status counters. -/
structure Sys where
  frames : List Frame
  currentAlive : Bool
  orphanAlive : Nat
  retryingEmits : Nat
  errorEmits : Nat
deriving Repr, DecidableEq

/-- Number of live backend clients. -/
def aliveClients (s : Sys) : Nat :=
  s.orphanAlive + (if s.currentAlive then 1 else 0)

/-- Replace frame `i`. -/
def updateAt {α : Type} : Nat → (α → α) → List α → List α
  | _, _, [] => []
  | 0, g, f :: fs => g f :: fs
  | i + 1, g, f :: fs => f :: updateAt i g fs

/-- `initWhatsApp` constructs a fresh client and assigns the module-level
variable: a still-alive previous client becomes an unreachable orphan. -/
def newClient (s : Sys) : Sys :=
  { s with
    orphanAlive := s.orphanAlive + (if s.currentAlive then 1 else 0)
    currentAlive := true }

/-- The synchronous prefix of `doRetry` for frame `i` (main.js 256-265):
if that closure's `retryTriggered` is already set, nothing happens;
otherwise the flag is set, the module-level client is destroyed, and the
continuation parks at the 2 s sleep (`retryPending`). -/
def doRetryStart (s : Sys) (i : Nat) : Sys :=
  match s.frames[i]? with
  | none => s
  | some f =>
    if f.retryTriggered then s
    else
      { s with
        frames := updateAt i
          (fun _ => { f with retryTriggered := true, retryPending := true }) s.frames
        currentAlive := false }

/-- Interleaving points of the supervisor, retry and reconnect paths. -/
inductive Act
  | eventFires (i : Nat)
  | timerFires (i : Nat)
  | initErrorHits (i : Nat)
  | retryResume (i : Nat)
  | reconnect
deriving Repr, DecidableEq

/-- One atomic scheduler step.
* `eventFires i`: a lifecycle event reaches frame `i`'s once-listeners.
* `timerFires i`: frame `i`'s 45 s init timer elapses; per main.js 293-300
  it invokes `doRetry` only when no event was received.
* `initErrorHits i`: frame `i`'s `initialize()` rejects; per
  main.js 305-312 it invokes `doRetry` unconditionally.
* `retryResume i`: frame `i`'s parked `doRetry` continues after the grace
  sleep (main.js 267-287): below the bound it emits `retrying` and
  constructs a new client/frame, at the bound it emits the terminal error.
* `reconnect`: the `reconnect-whatsapp` handler (main.js 883-894) destroys
  the current client unconditionally and re-invokes `initWhatsApp()`. -/
def step (s : Sys) : Act → Sys
  | .eventFires i =>
    match s.frames[i]? with
    | none => s
    | some f => { s with frames := updateAt i (fun _ => { f with eventReceived := true }) s.frames }
  | .timerFires i =>
    match s.frames[i]? with
    | none => s
    | some f => if f.eventReceived then s else doRetryStart s i
  | .initErrorHits i => doRetryStart s i
  | .retryResume i =>
    match s.frames[i]? with
    | none => s
    | some f =>
      if f.retryPending then
        let s1 := { s with frames := updateAt i (fun _ => { f with retryPending := false }) s.frames }
        if f.attempt < 3 then
          let s2 := { s1 with retryingEmits := s1.retryingEmits + 1 }
          { (newClient s2) with
            frames := (newClient s2).frames ++ [⟨f.attempt + 1, false, false, false⟩] }
        else { s1 with errorEmits := s1.errorEmits + 1 }
      else s
  | .reconnect =>
    let s1 := { s with currentAlive := false }
    { (newClient s1) with frames := (newClient s1).frames ++ [⟨1, false, false, false⟩] }

/-- Run a schedule. -/
def runSys (s : Sys) (acts : List Act) : Sys := acts.foldl step s

/-- Concrete message: text only, t=100 (spec §8 end-to-end scenario). -/
def msgW1 : Msg := ⟨"true_111@c.us_W1", 100, false, "chat", "hello", "", "", 0⟩

/-- Concrete message: image "photo.jpg", t=200. -/
def msgW2 : Msg := ⟨"true_111@c.us_W2", 200, true, "image", "", "photo.jpg", "image/jpeg", 4⟩

/-- Concrete message: document with no explicit file name, t=300. -/
def msgW3 : Msg := ⟨"true_111@c.us_W3", 300, true, "document", "", "", "application/pdf", 9⟩

/-- Concrete chat with `unreadCount = 2` and the three messages above. -/
def chatW : Chat := ⟨"111@c.us", "111", "Ann", false, 2, 300, [msgW1, msgW2, msgW3]⟩

/-- Concrete empty chat with `unreadCount = 0`. -/
def chatE : Chat := ⟨"222@c.us", "222", "Bob", false, 0, 0, []⟩

/-- Concrete media payload for `msgW2`. -/
def mediaW : Media := ⟨"QUJD", "image/jpeg", ""⟩

/-- Concrete environment around `chatW`/`chatE`. -/
def envW : Env :=
  { chats := [chatW, chatE]
    getChatById := fun i =>
      if i = "111@c.us" then some chatW
      else if i = "222@c.us" then some chatE
      else none
    getChatOfMsg := fun i => if i = msgW2.id then some chatW else none
    getContactOfMsg := fun _ => some ⟨"AnnPush", "Ann", "111"⟩
    getContactOfChat := fun _ => none
    getProfilePic := fun _ => none
    downloadMedia := fun i => if i = msgW2.id then some (some mediaW) else some none
    deleteMsg := fun _ => some ()
    mimeExt := fun mt =>
      if mt = "application/pdf" then "pdf"
      else if mt = "image/jpeg" then "jpg"
      else ""
    info := ⟨"Me", "999", "999@c.us"⟩
    nowMs := 1234
    downloadsDir := "dls" }

/-- Concrete stale chat: no unread messages, last activity at t=0. -/
def chatStale : Chat := ⟨"333@c.us", "333", "Old", false, 0, 0, []⟩

/-- Environment whose only chat is `chatStale`. -/
def envStale : Env :=
  { chats := [chatStale]
    getChatById := fun _ => none
    getChatOfMsg := fun _ => none
    getContactOfMsg := fun _ => none
    getContactOfChat := fun _ => none
    getProfilePic := fun _ => none
    downloadMedia := fun _ => none
    deleteMsg := fun _ => none
    mimeExt := fun _ => ""
    info := ⟨"", "", ""⟩
    nowMs := 0
    downloadsDir := "downloads" }

/-- Concrete filesystem for the delete-batch scenario: "c" is missing. -/
def fsW : FS := ["a", "b", "d", "e"]

/-- Supervisor state right after `startClient(1)` registered its listeners:
one frame, no event yet, client alive. -/
def sysInit : Sys :=
  { frames := [⟨1, false, false, false⟩]
    currentAlive := true
    orphanAlive := 0
    retryingEmits := 0
    errorEmits := 0 }

/-- Supervisor state in which frame 0's `doRetry` has already been
triggered and is parked at its grace sleep. -/
def sysTriggered : Sys :=
  { frames := [⟨1, false, true, true⟩]
    currentAlive := false
    orphanAlive := 0
    retryingEmits := 0
    errorEmits := 0 }

/-- The deterministic download path `{downloadsDir}/{sanitizedMessageId}_{fileName}`
(spec section 6 persisted-state contract). -/
def dlPath (env : Env) (messageId fn : String) : String :=
  pathJoin env.downloadsDir (sanitizeId messageId ++ "_" ++ fn)

theorem length_insertAscBy {α : Type} (key : α → Nat) (x : α) :
    ∀ l : List α, (insertAscBy key x l).length = l.length + 1 := by
  intro l
  induction l with
  | nil => rfl
  | cons y ys ih =>
    simp only [insertAscBy]
    split <;> simp [ih]

theorem length_foldl_insertAscBy {α : Type} (key : α → Nat) :
    ∀ (l acc : List α),
      (l.foldl (fun acc x => insertAscBy key x acc) acc).length
        = acc.length + l.length := by
  intro l
  induction l with
  | nil => intro acc; simp
  | cons x xs ih =>
    intro acc
    simp only [List.foldl_cons, List.length_cons]
    rw [ih, length_insertAscBy]
    omega

theorem length_stableSortAscBy {α : Type} (key : α → Nat) (l : List α) :
    (stableSortAscBy key l).length = l.length := by
  unfold stableSortAscBy
  rw [length_foldl_insertAscBy]
  simp

theorem mem_insertDescBy {α : Type} (key : α → Nat) (x a : α) :
    ∀ l : List α, a ∈ insertDescBy key x l ↔ a = x ∨ a ∈ l := by
  intro l
  induction l with
  | nil => simp [insertDescBy]
  | cons y ys ih =>
    simp only [insertDescBy]
    split <;> simp [ih] <;> tauto

theorem mem_foldl_insertDescBy {α : Type} (key : α → Nat) :
    ∀ (l acc : List α) (a : α),
      a ∈ l.foldl (fun acc x => insertDescBy key x acc) acc ↔ a ∈ acc ∨ a ∈ l := by
  intro l
  induction l with
  | nil => intro acc a; simp
  | cons x xs ih =>
    intro acc a
    simp only [List.foldl_cons]
    rw [ih, mem_insertDescBy]
    simp
    tauto

theorem mem_stableSortDescBy {α : Type} (key : α → Nat) (l : List α) (a : α) :
    a ∈ stableSortDescBy key l ↔ a ∈ l := by
  unfold stableSortDescBy
  rw [mem_foldl_insertDescBy]
  simp

theorem pairwise_insertDescBy {α : Type} (key : α → Nat) (x : α) :
    ∀ l : List α, List.Pairwise (fun a b => key b ≤ key a) l →
      List.Pairwise (fun a b => key b ≤ key a) (insertDescBy key x l) := by
  intro l
  induction l with
  | nil => intro _; simp [insertDescBy]
  | cons y ys ih =>
    intro h
    rcases List.pairwise_cons.mp h with ⟨h1, h2⟩
    simp only [insertDescBy]
    split
    · rename_i hxy
      refine List.pairwise_cons.mpr ⟨?_, ih h2⟩
      intro b hb
      rcases (mem_insertDescBy key x b ys).mp hb with hbx | hbys
      · subst hbx; exact hxy
      · exact h1 b hbys
    · rename_i hxy
      have hyx : key y ≤ key x := Nat.le_of_lt (Nat.lt_of_not_le hxy)
      refine List.pairwise_cons.mpr ⟨?_, h⟩
      intro b hb
      rcases List.mem_cons.mp hb with hby | hbys
      · subst hby; exact hyx
      · exact Nat.le_trans (h1 b hbys) hyx

theorem pairwise_foldl_insertDescBy {α : Type} (key : α → Nat) :
    ∀ (l acc : List α), List.Pairwise (fun a b => key b ≤ key a) acc →
      List.Pairwise (fun a b => key b ≤ key a)
        (l.foldl (fun acc x => insertDescBy key x acc) acc) := by
  intro l
  induction l with
  | nil => intro acc h; simpa using h
  | cons x xs ih =>
    intro acc h
    simp only [List.foldl_cons]
    exact ih _ (pairwise_insertDescBy key x acc h)

theorem pairwise_stableSortDescBy {α : Type} (key : α → Nat) (l : List α) :
    List.Pairwise (fun a b => key b ≤ key a) (stableSortDescBy key l) :=
  pairwise_foldl_insertDescBy key l [] List.Pairwise.nil

theorem insertDescBy_of_le {α : Type} (key : α → Nat) (x : α) :
    ∀ l : List α, (∀ y ∈ l, key x ≤ key y) → insertDescBy key x l = l ++ [x] := by
  intro l
  induction l with
  | nil => intro _; rfl
  | cons y ys ih =>
    intro h
    simp only [insertDescBy]
    rw [if_pos (h y (List.mem_cons_self y ys))]
    rw [ih (fun z hz => h z (List.mem_cons_of_mem y hz))]
    simp

theorem foldl_insertDescBy_sorted {α : Type} (key : α → Nat) :
    ∀ (l acc : List α), List.Pairwise (fun a b => key b ≤ key a) (acc ++ l) →
      l.foldl (fun acc x => insertDescBy key x acc) acc = acc ++ l := by
  intro l
  induction l with
  | nil => intro acc _; simp
  | cons x xs ih =>
    intro acc h
    have hx : ∀ y ∈ acc, key x ≤ key y := by
      intro y hy
      have := (List.pairwise_append.mp h).2.2 y hy x (List.mem_cons_self x xs)
      exact this
    simp only [List.foldl_cons]
    rw [insertDescBy_of_le key x acc hx]
    have hrest : List.Pairwise (fun a b => key b ≤ key a) ((acc ++ [x]) ++ xs) := by
      rw [List.append_assoc]
      simpa using h
    rw [ih (acc ++ [x]) hrest]
    simp

theorem stableSortDescBy_of_sorted {α : Type} (key : α → Nat) (l : List α)
    (h : List.Pairwise (fun a b => key b ≤ key a) l) :
    stableSortDescBy key l = l := by
  unfold stableSortDescBy
  have := foldl_insertDescBy_sorted key l [] (by simpa using h)
  simpa using this

theorem insertDescBy_map {α β : Type} (f : α → β) (keyA : α → Nat) (keyB : β → Nat)
    (hk : ∀ a, keyB (f a) = keyA a) (x : α) :
    ∀ l : List α, (insertDescBy keyA x l).map f = insertDescBy keyB (f x) (l.map f) := by
  intro l
  induction l with
  | nil => rfl
  | cons y ys ih =>
    simp only [insertDescBy, List.map_cons, hk]
    split <;> simp [ih, insertDescBy]

theorem foldl_insertDescBy_map {α β : Type} (f : α → β) (keyA : α → Nat) (keyB : β → Nat)
    (hk : ∀ a, keyB (f a) = keyA a) :
    ∀ (l acc : List α),
      (l.foldl (fun acc x => insertDescBy keyA x acc) acc).map f
        = (l.map f).foldl (fun acc y => insertDescBy keyB y acc) (acc.map f) := by
  intro l
  induction l with
  | nil => intro acc; rfl
  | cons x xs ih =>
    intro acc
    simp only [List.foldl_cons, List.map_cons]
    rw [ih, insertDescBy_map f keyA keyB hk]

theorem stableSortDescBy_map {α β : Type} (f : α → β) (keyA : α → Nat) (keyB : β → Nat)
    (hk : ∀ a, keyB (f a) = keyA a) (l : List α) :
    stableSortDescBy keyB (l.map f) = (stableSortDescBy keyA l).map f := by
  unfold stableSortDescBy
  rw [foldl_insertDescBy_map f keyA keyB hk]
  rfl

theorem listMapCongr {α β : Type} (f g : α → β) :
    ∀ l : List α, (∀ a ∈ l, f a = g a) → l.map f = l.map g := by
  intro l
  induction l with
  | nil => intro _; rfl
  | cons x xs ih =>
    intro h
    simp only [List.map_cons]
    rw [h x (List.mem_cons_self x xs), ih (fun a ha => h a (List.mem_cons_of_mem x ha))]

theorem find?_pred_true {α : Type} (p : α → Bool) :
    ∀ (l : List α) (a : α), l.find? p = some a → p a = true := by
  intro l
  induction l with
  | nil => intro a h; simp [List.find?] at h
  | cons x xs ih =>
    intro a h
    by_cases hpx : p x = true
    · rw [List.find?_cons_of_pos _ hpx] at h
      cases h; exact hpx
    · rw [List.find?_cons_of_neg _ (by simpa using hpx)] at h
      exact ih a h

theorem runInit_authClears_le :
    ∀ (outs : List AttemptOutcome) (a : Nat), (runInit a outs).authClears ≤ 3 - a := by
  intro outs
  induction outs with
  | nil => intro a; simp [runInit]
  | cons o rest ih =>
    intro a
    cases o with
    | ok => simp [runInit]
    | failNoEvent =>
      simp only [runInit]
      split
      · rename_i h
        have hr := ih (a + 1)
        show (runInit (a + 1) rest).authClears + 1 ≤ 3 - a
        omega
      · simp
    | failWithEvent =>
      simp only [runInit]
      split
      · rename_i h
        have hr := ih (a + 1)
        show (runInit (a + 1) rest).authClears ≤ 3 - a
        omega
      · simp

/-- C1 counterexample: on three consecutive event-less initialization
failures the code clears the auth-storage directory twice (after the
first and after the second failure), not exactly once as claimed. -/
theorem C1_auth_cleared_twice :
    (runInit 1 [.failNoEvent, .failNoEvent, .failNoEvent]).authClears = 2
    ∧ ¬ (runInit 1 [.failNoEvent, .failNoEvent, .failNoEvent]).authClears = 1 := by
  decide

/-- C1 amended: given 3 consecutive event-less initialization failures the
supervisor reaches the terminal error status after exactly 3 attempts
(one error emission, no success), having cleared auth-storage exactly
twice — once after each event-less failure that precedes a retry — and a
whole retry sequence can never clear it more than twice. -/
theorem C1_retry_bound_amended :
    runInit 1 [.failNoEvent, .failNoEvent, .failNoEvent]
      = { attemptsUsed := 3, authClears := 2, retryingEmits := 2, errorEmits := 1, succeeded := false }
    ∧ ∀ outs : List AttemptOutcome, (runInit 1 outs).authClears ≤ 2 := by
  refine ⟨by decide, fun outs => ?_⟩
  simpa using runInit_authClears_le outs 1

/-- C6 counterexample: the `auth_failure` handler does not clear the
readiness flag — starting from a ready session it leaves
`isClientReady = true` while emitting the `auth_failure` status (the
`disconnected` handler does clear it). -/
theorem C6_auth_failure_keeps_ready :
    (onAuthFailure true).1 = true
    ∧ ¬ (onAuthFailure true).1 = false
    ∧ (onAuthFailure true).2 = [.status "auth_failure"]
    ∧ (onDisconnected true).1 = false := by
  decide

/-- C6 amended: the `disconnected` handler clears the readiness flag and
emits the `disconnected` status; the `auth_failure` handler emits the
`auth_failure` status but leaves the readiness flag unchanged; neither
handler triggers a retry or reinitialization. -/
theorem C6_lifecycle_amended (b : Bool) :
    onDisconnected b = (false, [.status "disconnected"])
    ∧ onAuthFailure b = (b, [.status "auth_failure"])
    ∧ UiEvent.reinitCall ∉ (onDisconnected b).2
    ∧ UiEvent.reinitCall ∉ (onAuthFailure b).2 := by
  refine ⟨rfl, rfl, by simp [onDisconnected], by simp [onAuthFailure]⟩

/-- C5: every chat/message operation invoked while the readiness flag is
false returns the error result "WhatsApp not ready" with no backend call
issued and the filesystem untouched (the seven gated handlers:
get-unread-chats, get-all-chats, get-chat-files, download-file,
download-all-files, mark-chat-read, get-profile-info). -/
theorem C5_not_ready_gate (env : Env) (fs : FS) (chatId messageId fileName : String)
    (limit : Nat) (clientExists : Bool) :
    ((getUnreadChats env false fs).result = .error "WhatsApp not ready"
      ∧ (getUnreadChats env false fs).calls = []
      ∧ (getUnreadChats env false fs).fsOut = fs)
    ∧ ((getAllChats env false fs limit).result = .error "WhatsApp not ready"
      ∧ (getAllChats env false fs limit).calls = []
      ∧ (getAllChats env false fs limit).fsOut = fs)
    ∧ ((getChatFiles env false fs chatId).result = .error "WhatsApp not ready"
      ∧ (getChatFiles env false fs chatId).calls = []
      ∧ (getChatFiles env false fs chatId).fsOut = fs)
    ∧ ((downloadFile env false fs messageId chatId fileName).result = .error "WhatsApp not ready"
      ∧ (downloadFile env false fs messageId chatId fileName).calls = []
      ∧ (downloadFile env false fs messageId chatId fileName).fsOut = fs)
    ∧ ((downloadAllFiles env false fs chatId).result = .error "WhatsApp not ready"
      ∧ (downloadAllFiles env false fs chatId).calls = []
      ∧ (downloadAllFiles env false fs chatId).fsOut = fs)
    ∧ ((markChatRead env false fs chatId).result = .error "WhatsApp not ready"
      ∧ (markChatRead env false fs chatId).calls = []
      ∧ (markChatRead env false fs chatId).fsOut = fs)
    ∧ ((getProfileInfo env false clientExists fs).result = .error "WhatsApp not ready"
      ∧ (getProfileInfo env false clientExists fs).calls = []
      ∧ (getProfileInfo env false clientExists fs).fsOut = fs) := by
  exact ⟨⟨rfl, rfl, rfl⟩, ⟨rfl, rfl, rfl⟩, ⟨rfl, rfl, rfl⟩, ⟨rfl, rfl, rfl⟩,
    ⟨rfl, rfl, rfl⟩, ⟨rfl, rfl, rfl⟩, ⟨rfl, rfl, rfl⟩⟩

/-- C3 counterexample: schedule in which the manual reconnect runs while
frame 0's stale-session retry is parked at its grace sleep (the first
conjunct shows the retry is in flight at that point); afterwards two
backend clients are alive, refuting the claimed mutual exclusion. -/
theorem C3_reconnect_two_clients :
    ((runSys sysInit [.timerFires 0]).frames[0]?).map Frame.retryPending = some true
    ∧ aliveClients (runSys sysInit [.timerFires 0, .reconnect, .retryResume 0]) = 2
    ∧ ¬ aliveClients (runSys sysInit [.timerFires 0, .reconnect, .retryResume 0]) ≤ 1 := by
  decide

/-- C3 amended: the single-flight guard exists only inside one
`startClient` invocation: once that closure's `doRetry` has been
triggered, a second trigger of the same teardown — whether from the init
timer or from the `initialize()` error path — is a no-op (state unchanged,
so no second destroy and no second `retrying` emission).  The manual
reconnect path is not covered by any guard and can leave two live
clients, as the counterexample shows. -/
theorem C3_single_flight_amended (s : Sys) (i : Nat) (f : Frame)
    (hf : s.frames[i]? = some f) (hg : f.retryTriggered = true) :
    step s (.initErrorHits i) = s ∧ step s (.timerFires i) = s := by
  constructor
  · simp [step, doRetryStart, hf, hg]
  · by_cases he : f.eventReceived <;> simp [step, doRetryStart, hf, hg, he]

/-- Witness for the amended C3 theorem at a concrete in-flight retry. -/
theorem C3_single_flight_amended_witness :
    step sysTriggered (.initErrorHits 0) = sysTriggered
    ∧ step sysTriggered (.timerFires 0) = sysTriggered :=
  C3_single_flight_amended sysTriggered 0 ⟨1, false, true, true⟩ rfl rfl

/-- C4: each initialization attempt starts a 45000 ms (45 s) timer; when
it elapses after one of the four lifecycle events fired for that attempt
it does nothing, and when no event fired it runs the `doRetry` teardown:
the frame's retry is triggered and parked, and the backend client is
destroyed. -/
theorem C4_stale_timer (s : Sys) (i : Nat) (f : Frame)
    (hf : s.frames[i]? = some f) :
    INIT_TIMEOUT_MS = 45000
    ∧ (f.eventReceived = true → step s (.timerFires i) = s)
    ∧ (f.eventReceived = false → f.retryTriggered = false →
        step s (.timerFires i)
          = { s with
              frames := updateAt i
                (fun _ => { f with retryTriggered := true, retryPending := true }) s.frames
              currentAlive := false }) := by
  refine ⟨rfl, ?_, ?_⟩
  · intro he
    simp [step, hf, he]
  · intro he ht
    simp [step, doRetryStart, hf, he, ht]

/-- Witness for C4 at a fresh event-less attempt. -/
theorem C4_stale_timer_witness :
    step sysInit (.timerFires 0)
      = { sysInit with
          frames := updateAt 0
            (fun _ => { attempt := 1, eventReceived := false,
                        retryTriggered := true, retryPending := true }) sysInit.frames
          currentAlive := false } :=
  (C4_stale_timer sysInit 0 ⟨1, false, false, false⟩ rfl).2.2 rfl rfl

theorem unreadIdsOf_eq_lastMin (msgs : List Msg) (k : Nat) :
    unreadIdsOf msgs k
      = ((stableSortAscBy Msg.timestamp msgs).drop
          (msgs.length - min k msgs.length)).map Msg.id := by
  unfold unreadIdsOf
  have hlen := length_stableSortAscBy Msg.timestamp msgs
  by_cases hk : k > 0
  · rw [if_pos hk]
    congr 2
    omega
  · rw [if_neg hk]
    have h0 : msgs.length - min k msgs.length = msgs.length := by omega
    rw [h0, ← hlen, List.drop_length]
    rfl

theorem unreadIdsOf_length (msgs : List Msg) (k : Nat) :
    (unreadIdsOf msgs k).length = min k msgs.length := by
  rw [unreadIdsOf_eq_lastMin, List.length_map, List.length_drop,
    length_stableSortAscBy]
  omega

theorem unreadIdsOf_all (msgs : List Msg) (k : Nat) (h : msgs.length ≤ k) :
    unreadIdsOf msgs k = (stableSortAscBy Msg.timestamp msgs).map Msg.id := by
  rw [unreadIdsOf_eq_lastMin]
  have h0 : msgs.length - min k msgs.length = 0 := by omega
  rw [h0, List.drop_zero]

theorem getChatFilesCore_isUnread (env : Env) (fs : FS) (chatId : String) (c : Chat) :
    ∀ e ∈ (getChatFilesCore env fs chatId c).files,
      e.isUnread
        = (unreadIdsOf (fetchMessages c 50) c.unreadCount).contains e.messageId := by
  intro e he
  unfold getChatFilesCore at he
  simp only at he
  rw [mem_stableSortDescBy] at he
  rcases List.mem_map.mp he with ⟨m, hm, hme⟩
  subst hme
  rfl

/-- C2: in `get-chat-files`, for a chat with `unreadCount = k` and `m`
retrieved messages, the unread-classified set is exactly the last
`min(k, m)` messages of the stable ascending-by-timestamp ordering; it is
empty when `k = 0` and is the whole window when `k ≥ m`; and every file
entry's `isUnread` tag is membership of its message id in that set. -/
theorem C2_unread_window (env : Env) (fs : FS) (chatId : String) (c : Chat) :
    unreadIdsOf (fetchMessages c 50) c.unreadCount
        = ((stableSortAscBy Msg.timestamp (fetchMessages c 50)).drop
            ((fetchMessages c 50).length
              - min c.unreadCount (fetchMessages c 50).length)).map Msg.id
    ∧ (unreadIdsOf (fetchMessages c 50) c.unreadCount).length
        = min c.unreadCount (fetchMessages c 50).length
    ∧ (c.unreadCount = 0 → unreadIdsOf (fetchMessages c 50) c.unreadCount = [])
    ∧ ((fetchMessages c 50).length ≤ c.unreadCount →
        unreadIdsOf (fetchMessages c 50) c.unreadCount
          = (stableSortAscBy Msg.timestamp (fetchMessages c 50)).map Msg.id)
    ∧ (∀ e ∈ (getChatFilesCore env fs chatId c).files,
        e.isUnread
          = (unreadIdsOf (fetchMessages c 50) c.unreadCount).contains e.messageId) := by
  refine ⟨unreadIdsOf_eq_lastMin _ _, unreadIdsOf_length _ _, ?_, unreadIdsOf_all _ _,
    getChatFilesCore_isUnread env fs chatId c⟩
  intro h0
  rw [h0]
  rfl

/-- Witness for C2 at the concrete empty chat (`k = 0`, `m = 0`),
discharging both conditional conjuncts. -/
theorem C2_unread_window_witness :
    unreadIdsOf (fetchMessages chatE 50) chatE.unreadCount = []
    ∧ unreadIdsOf (fetchMessages chatE 50) chatE.unreadCount
        = (stableSortAscBy Msg.timestamp (fetchMessages chatE 50)).map Msg.id := by
  have h := C2_unread_window envW [] "222@c.us" chatE
  exact ⟨h.2.2.1 rfl, h.2.2.2.1 (by decide)⟩

/-- C9 counterexample: `envStale` holds a single chat with
`unreadCount = 0` whose last activity (t=0) lies far outside a trailing
24-hour window ending at t=1000000, yet `get-unread-chats` returns it;
the listing the claim describes (`claimedRecentChats`) is empty there. -/
theorem C9_stale_chat_included :
    (∃ l, (getUnreadChats envStale true []).result = .ok l
        ∧ l.map ChatListing.id = ["333@c.us"])
    ∧ claimedRecentChats envStale 1000000 = []
    ∧ chatStale.unreadCount = 0
    ∧ chatStale.timestamp + 86400 < 1000000 := by
  refine ⟨⟨_, rfl, ?_⟩, ?_, rfl, by decide⟩
  · rfl
  · rfl

/-- C9 amended: `get-unread-chats` applies no unread-count or 24-hour
filter: it returns every chat except the `status@broadcast` pseudo-chat,
in descending last-activity order (the returned listings carry exactly
the ids of the broadcast-filtered chat list sorted descending, and the
returned list is sorted descending by timestamp). -/
theorem C9_listing_amended (env : Env) (fs : FS) :
    ∃ l, (getUnreadChats env true fs).result = .ok l
      ∧ l.map ChatListing.id
          = (stableSortDescBy Chat.timestamp
              (env.chats.filter (fun c => c.serializedId != "status@broadcast"))).map
              Chat.serializedId
      ∧ List.Pairwise (fun a b => ChatListing.timestamp b ≤ ChatListing.timestamp a) l := by
  by_cases hE : env.chats.isEmpty
  · have hnil : env.chats = [] := List.isEmpty_iff.mp hE
    refine ⟨[], ?_, ?_, List.Pairwise.nil⟩
    · simp [getUnreadChats, hE]
    · rw [hnil]
      rfl
  · have hsort := stableSortDescBy_map (chatListingOf env) Chat.timestamp
      ChatListing.timestamp (fun _ => rfl)
      (env.chats.filter (fun c => c.serializedId != "status@broadcast"))
    refine ⟨stableSortDescBy ChatListing.timestamp
        ((env.chats.filter (fun c => c.serializedId != "status@broadcast")).map
          (chatListingOf env)),
      ?_, ?_, pairwise_stableSortDescBy _ _⟩
    · show (if env.chats.isEmpty then
          (⟨.ok [], ["getChats"], fs⟩ : HandlerOut (List ChatListing))
        else _).result = _
      rw [if_neg hE]
      show Except.ok (stableSortDescBy ChatListing.timestamp
        ((stableSortDescBy Chat.timestamp
          (env.chats.filter (fun c => c.serializedId != "status@broadcast"))).map
            (chatListingOf env))) = _
      rw [← hsort, stableSortDescBy_of_sorted ChatListing.timestamp _
        (pairwise_stableSortDescBy _ _)]
    · rw [hsort, List.map_map]
      exact listMapCongr _ _ _ (fun a _ => rfl)

theorem deleteLocalPass_results (p0 : String) :
    ∀ (ps : List String) (fs : FS), ps.Nodup → p0 ∉ fs →
      (∀ p ∈ ps, p ≠ p0 → p ∈ fs) →
      (deleteLocalPass fs ps).1
        = ps.map (fun p =>
            if p = p0 then ⟨p, false, "File not found on disk"⟩
            else ⟨p, true, ""⟩) := by
  intro ps
  induction ps with
  | nil => intro fs _ _ _; rfl
  | cons p rest ih =>
    intro fs hnd hm hp
    rcases List.nodup_cons.mp hnd with ⟨hpnr, hndr⟩
    by_cases hpp : p = p0
    · subst hpp
      have hex : fsExists fs p = false := by
        simp only [fsExists]
        exact (Bool.not_eq_true _).mp (fun hc => hm (List.elem_iff.mp hc))
      unfold deleteLocalPass
      rw [hex]
      simp only [Bool.false_eq_true, if_false, List.map_cons]
      rw [ih fs hndr hm (fun q hq hq0 => hp q (List.mem_cons_of_mem p hq) hq0)]
      simp
    · have hin : p ∈ fs := hp p (List.mem_cons_self p rest) hpp
      have hex : fsExists fs p = true := by
        simp only [fsExists]
        exact List.elem_iff.mpr hin
      unfold deleteLocalPass
      rw [hex]
      simp only [if_true, List.map_cons, if_neg hpp]
      have hm2 : p0 ∉ fs.erase p := fun hc => hm (List.mem_of_mem_erase hc)
      have hp2 : ∀ q ∈ rest, q ≠ p0 → q ∈ fs.erase p := by
        intro q hq hq0
        have hqp : q ≠ p := fun he => hpnr (he ▸ hq)
        exact (List.mem_erase_of_ne hqp).mpr (hp q (List.mem_cons_of_mem p hq) hq0)
      rw [ih (fs.erase p) hndr hm2 hp2]

theorem filter_beq_singleton (p0 : String) :
    ∀ ps : List String, ps.Nodup → p0 ∈ ps →
      ps.filter (fun p => p == p0) = [p0] := by
  intro ps
  induction ps with
  | nil => intro _ hmem; cases hmem
  | cons p rest ih =>
    intro hnd hmem
    rcases List.nodup_cons.mp hnd with ⟨hpnr, hndr⟩
    by_cases hpp : p = p0
    · subst hpp
      rw [List.filter_cons_of_pos (by simp)]
      have hnil : rest.filter (fun q => q == p) = [] := by
        refine List.filter_eq_nil_iff.mpr ?_
        intro q hq
        simp only [ne_eq, beq_iff_eq]
        exact fun he => hpnr (he ▸ hq)
      rw [hnil]
    · rcases List.mem_cons.mp hmem with he | hmr
      · exact absurd he.symm hpp
      · rw [List.filter_cons_of_neg (by simpa using hpp)]
        exact ih hndr hmr

theorem length_filter_split {α : Type} (p : α → Bool) :
    ∀ l : List α, (l.filter p).length + (l.filter (fun a => !p a)).length = l.length := by
  intro l
  induction l with
  | nil => rfl
  | cons x xs ih =>
    by_cases hx : p x = true
    · rw [List.filter_cons_of_pos hx, List.filter_cons_of_neg (by simp [hx])]
      simp only [List.length_cons]
      omega
    · rw [List.filter_cons_of_neg (by simpa using hx),
        List.filter_cons_of_pos (by simpa using hx)]
      simp only [List.length_cons]
      omega

/-- C8: for a delete batch whose file paths are distinct and of which
exactly one (`p0`) is missing on disk, the local results are one entry
per path — the missing one failing with "File not found on disk", all
others succeeding — and the WhatsApp-side pass is computed independently
of the filesystem (hence of any local outcome), from the readiness flag,
`chatId` and `messageIds` alone. -/
theorem C8_delete_batch (env : Env) (ready : Bool) (fs : FS)
    (filePaths messageIds : List String) (chatId p0 : String)
    (hnd : filePaths.Nodup) (hp0 : p0 ∈ filePaths)
    (hmiss : p0 ∉ fs)
    (hpresent : ∀ p ∈ filePaths, p ≠ p0 → p ∈ fs) :
    (deleteFiles env ready fs filePaths messageIds chatId).results
        = filePaths.map (fun p =>
            if p = p0 then ⟨p, false, "File not found on disk"⟩
            else ⟨p, true, ""⟩)
    ∧ (deleteFiles env ready fs filePaths messageIds chatId).results.length
        = filePaths.length
    ∧ (deleteFiles env ready fs filePaths messageIds chatId).results.filter
          (fun r => !r.success)
        = [⟨p0, false, "File not found on disk"⟩]
    ∧ ((deleteFiles env ready fs filePaths messageIds chatId).results.filter
          (fun r => r.success)).length = filePaths.length - 1
    ∧ (∀ fs2 : FS, (deleteFiles env ready fs2 filePaths messageIds chatId).waResults
          = (deleteFiles env ready fs filePaths messageIds chatId).waResults)
    ∧ (deleteFiles env ready fs filePaths messageIds chatId).waResults
        = deleteWaPass env ready chatId messageIds := by
  have hres := deleteLocalPass_results p0 filePaths fs hnd hmiss hpresent
  have hr : (deleteFiles env ready fs filePaths messageIds chatId).results
      = filePaths.map (fun p =>
          if p = p0 then ⟨p, false, "File not found on disk"⟩
          else ⟨p, true, ""⟩) := hres
  have hfail : (deleteFiles env ready fs filePaths messageIds chatId).results.filter
      (fun r => !r.success) = [⟨p0, false, "File not found on disk"⟩] := by
    rw [hr, List.filter_map]
    have hfc : filePaths.filter
        ((fun r : FileDelRes => !r.success) ∘ (fun p =>
          if p = p0 then (⟨p, false, "File not found on disk"⟩ : FileDelRes)
          else ⟨p, true, ""⟩))
        = filePaths.filter (fun p => p == p0) := by
      refine List.filter_congr ?_
      intro p _
      by_cases hpp : p = p0 <;> simp [hpp]
    rw [hfc, filter_beq_singleton p0 filePaths hnd hp0]
    simp
  refine ⟨hr, ?_, hfail, ?_, fun fs2 => rfl, rfl⟩
  · rw [hr, List.length_map]
  · have hsplit := length_filter_split (fun r : FileDelRes => r.success)
      (deleteFiles env ready fs filePaths messageIds chatId).results
    have hlen : (deleteFiles env ready fs filePaths messageIds chatId).results.length
        = filePaths.length := by rw [hr, List.length_map]
    rw [hfail] at hsplit
    simp only [List.length_cons, List.length_nil] at hsplit
    omega

/-- Witness for C8 at the spec section 8 scenario: five targets of which
the third ("c") is missing on disk. -/
theorem C8_delete_batch_witness :
    (deleteFiles envW true fsW ["a", "b", "c", "d", "e"] ["true_111@c.us_W2"] "111@c.us").results
        = [⟨"a", true, ""⟩, ⟨"b", true, ""⟩, ⟨"c", false, "File not found on disk"⟩,
           ⟨"d", true, ""⟩, ⟨"e", true, ""⟩]
    ∧ (deleteFiles envW true [] ["a", "b", "c", "d", "e"] ["true_111@c.us_W2"] "111@c.us").waResults
        = (deleteFiles envW true fsW ["a", "b", "c", "d", "e"] ["true_111@c.us_W2"] "111@c.us").waResults := by
  have h := C8_delete_batch envW true fsW ["a", "b", "c", "d", "e"] ["true_111@c.us_W2"]
    "111@c.us" "c" (by decide) (by decide) (by decide) (by decide)
  refine ⟨?_, h.2.2.2.2.1 []⟩
  rw [h.1]
  rfl

theorem jsOr_ne_empty (a b : String) (hb : b ≠ "") : jsOr a b ≠ "" := by
  unfold jsOr
  split
  · exact hb
  · assumption

theorem msgFileName_ne_empty (env : Env) (m : Msg) : msgFileName env m ≠ "" := by
  unfold msgFileName
  split
  · intro h
    have hlen := congrArg String.length h
    simp only [String.length_append] at hlen
    have h1 : String.length "_" = 1 := rfl
    have h2 : String.length "." = 1 := rfl
    have h3 : String.length "" = 0 := rfl
    omega
  · assumption

/-- C7: if `download-file` succeeds for a media message found in the chat
window — called with the file name `get-chat-files` reports for that
message — then the returned `localPath` is exactly
`{downloadsDir}/{sanitizedMessageId}_{fileName}`, the file is written
there, and a subsequent `get-chat-files` on the same chat reports that
message with `isDownloaded = true` and the same `localPath`. -/
theorem C7_download_roundtrip (env : Env) (fs : FS) (chat : Chat) (msg : Msg)
    (media : Media) (chatId messageId : String)
    (hchat : env.getChatById chatId = some chat)
    (hfind : (fetchMessages chat 100).find? (fun m => m.id == messageId) = some msg)
    (hmedia : msg.hasMedia = true)
    (hdl : env.downloadMedia messageId = some (some media))
    (hmem : msg ∈ fetchMessages chat 50) :
    (downloadFile env true fs messageId chatId (msgFileName env msg)).result
        = .ok ⟨dlPath env messageId (msgFileName env msg), msgFileName env msg,
               media.data.length⟩
    ∧ (downloadFile env true fs messageId chatId (msgFileName env msg)).fsOut
        = dlPath env messageId (msgFileName env msg) :: fs
    ∧ (getChatFiles env true (dlPath env messageId (msgFileName env msg) :: fs)
          chatId).result
        = .ok (getChatFilesCore env
            (dlPath env messageId (msgFileName env msg) :: fs) chatId chat)
    ∧ mediaInfoOf env (dlPath env messageId (msgFileName env msg) :: fs) chatId
          (unreadIdsOf (fetchMessages chat 50) chat.unreadCount) msg
        ∈ (getChatFilesCore env (dlPath env messageId (msgFileName env msg) :: fs)
            chatId chat).files
    ∧ (mediaInfoOf env (dlPath env messageId (msgFileName env msg) :: fs) chatId
          (unreadIdsOf (fetchMessages chat 50) chat.unreadCount) msg).isDownloaded
        = true
    ∧ (mediaInfoOf env (dlPath env messageId (msgFileName env msg) :: fs) chatId
          (unreadIdsOf (fetchMessages chat 50) chat.unreadCount) msg).localPath
        = dlPath env messageId (msgFileName env msg) := by
  have hid : msg.id = messageId := by
    have := find?_pred_true _ _ _ hfind
    simpa using this
  have hfn : msgFileName env msg ≠ "" := msgFileName_ne_empty env msg
  have hdf : downloadFile env true fs messageId chatId (msgFileName env msg)
      = ⟨.ok ⟨dlPath env messageId (msgFileName env msg), msgFileName env msg,
            media.data.length⟩,
         ["getChatById", "fetchMessages", "downloadMedia"],
         dlPath env messageId (msgFileName env msg) :: fs⟩ := by
    unfold downloadFile
    rw [if_pos rfl, hchat]
    dsimp only
    rw [hfind]
    dsimp only
    rw [if_pos hmedia, hdl]
    simp only [jsOr, if_neg hfn]
    rfl
  have hex : fsExists (dlPath env messageId (msgFileName env msg) :: fs)
      (pathJoin env.downloadsDir (sanitizeId msg.id ++ "_" ++ msgFileName env msg))
      = true := by
    rw [hid]
    simp [fsExists, List.contains_cons, dlPath]
  refine ⟨by rw [hdf], by rw [hdf], ?_, ?_, ?_, ?_⟩
  · unfold getChatFiles
    rw [if_pos rfl, hchat]
  · unfold getChatFilesCore
    simp only
    rw [mem_stableSortDescBy]
    exact List.mem_map_of_mem _ (List.mem_filter.mpr ⟨hmem, hmedia⟩)
  · show fsExists _ _ = true
    exact hex
  · show (if fsExists (dlPath env messageId (msgFileName env msg) :: fs)
        (pathJoin env.downloadsDir (sanitizeId msg.id ++ "_" ++ msgFileName env msg))
      then pathJoin env.downloadsDir (sanitizeId msg.id ++ "_" ++ msgFileName env msg)
      else "") = dlPath env messageId (msgFileName env msg)
    rw [hex, if_pos rfl, hid]
    rfl

/-- Witness for C7 at the concrete image message `msgW2` of `chatW`. -/
theorem C7_download_roundtrip_witness :
    (downloadFile envW true [] "true_111@c.us_W2" "111@c.us"
        (msgFileName envW msgW2)).result
      = .ok ⟨dlPath envW "true_111@c.us_W2" (msgFileName envW msgW2),
             msgFileName envW msgW2, (mediaW.data).length⟩
    ∧ (mediaInfoOf envW
          (dlPath envW "true_111@c.us_W2" (msgFileName envW msgW2) :: []) "111@c.us"
          (unreadIdsOf (fetchMessages chatW 50) chatW.unreadCount) msgW2).isDownloaded
      = true := by
  have h := C7_download_roundtrip envW [] chatW msgW2 mediaW "111@c.us"
    "true_111@c.us_W2" rfl (by decide) rfl (by decide) (by decide)
  exact ⟨h.1, h.2.2.2.2.1⟩

theorem autoDownloadFileName_eq (env : Env) (m : Msg) :
    autoDownloadFileName env m = msgFileName env m := rfl

/-- C10: for an incoming media message whose auto-download succeeds, the
`message` handler writes the media to the same deterministic path
`{downloadsDir}/{sanitizedMessageId}_{fileName}` that `get-chat-files`
checks — so a later `get-chat-files` reports the message as already
downloaded with that path — and sends `whatsapp:new-message` flagged
`autoDownloaded`; when the auto-download fails (rejected or null) the
failure is swallowed: the filesystem is untouched and the notification is
still sent with the message metadata. -/
theorem C10_auto_download (env : Env) (fs : FS) (m : Msg) (chat : Chat)
    (ct : Contact) (media : Media)
    (hchat : env.getChatOfMsg m.id = some chat)
    (hct : env.getContactOfMsg m.id = some ct)
    (hm : m.hasMedia = true) :
    autoDownloadFileName env m = msgFileName env m
    ∧ (env.downloadMedia m.id = some (some media) →
        (messageHandler env fs m).1 = dlPath env m.id (msgFileName env m) :: fs
        ∧ (∃ d, MsgEmit.newMessage d ∈ (messageHandler env fs m).2
            ∧ d.messageId = m.id ∧ d.autoDownloaded = true
            ∧ d.localPath = dlPath env m.id (msgFileName env m))
        ∧ (∀ (chatId : String) (uIds : List String),
            (mediaInfoOf env (messageHandler env fs m).1 chatId uIds m).isDownloaded
                = true
            ∧ (mediaInfoOf env (messageHandler env fs m).1 chatId uIds m).localPath
                = dlPath env m.id (msgFileName env m))
        ∧ (∀ (c2 : Chat) (chatId : String), m ∈ fetchMessages c2 50 →
            mediaInfoOf env (messageHandler env fs m).1 chatId
                (unreadIdsOf (fetchMessages c2 50) c2.unreadCount) m
              ∈ (getChatFilesCore env (messageHandler env fs m).1 chatId c2).files))
    ∧ ((env.downloadMedia m.id = none ∨ env.downloadMedia m.id = some none) →
        (messageHandler env fs m).1 = fs
        ∧ ∃ d, MsgEmit.newMessage d ∈ (messageHandler env fs m).2
            ∧ d.messageId = m.id ∧ d.hasMedia = true ∧ d.autoDownloaded = false) := by
  have hfn : autoDownloadFileName env m ≠ "" := msgFileName_ne_empty env m
  refine ⟨rfl, ?_, ?_⟩
  · intro hdl
    have hmh : messageHandler env fs m
        = (dlPath env m.id (msgFileName env m) :: fs,
           [MsgEmit.newMessage
             { chatId := chat.serializedId
               chatName := jsOr chat.name (jsOr (jsOr (jsOr ct.pushname ct.name) ct.number) "Unknown")
               contactNumber := jsOr chat.user chat.serializedId
               isGroup := chat.isGroup
               unreadCount := chat.unreadCount
               messageId := m.id
               hasMedia := m.hasMedia
               type := m.type
               body := m.body
               timestamp := m.timestamp
               sender := jsOr (jsOr (jsOr ct.pushname ct.name) ct.number) "Unknown"
               fileName := autoDownloadFileName env m
               mimeType := m.mimetype
               fileSize := m.size
               autoDownloaded := true
               localPath := dlPath env m.id (msgFileName env m) }]) := by
      unfold messageHandler
      rw [hchat, hct]
      dsimp only
      rw [if_pos hm, hdl]
      simp only [jsOr, if_neg hfn]
      rfl
    have hex : fsExists (dlPath env m.id (msgFileName env m) :: fs)
        (pathJoin env.downloadsDir (sanitizeId m.id ++ "_" ++ msgFileName env m))
        = true := by
      simp [fsExists, List.contains_cons, dlPath]
    refine ⟨by rw [hmh], ?_, ?_, ?_⟩
    · rw [hmh]
      exact ⟨_, List.mem_singleton.mpr rfl, rfl, rfl, rfl⟩
    · intro chatId uIds
      rw [hmh]
      constructor
      · show fsExists _ _ = true
        exact hex
      · show (if fsExists (dlPath env m.id (msgFileName env m) :: fs)
            (pathJoin env.downloadsDir (sanitizeId m.id ++ "_" ++ msgFileName env m))
          then pathJoin env.downloadsDir (sanitizeId m.id ++ "_" ++ msgFileName env m)
          else "") = dlPath env m.id (msgFileName env m)
        rw [hex, if_pos rfl]
        rfl
    · intro c2 chatId hmem
      rw [hmh]
      unfold getChatFilesCore
      simp only
      rw [mem_stableSortDescBy]
      exact List.mem_map_of_mem _ (List.mem_filter.mpr ⟨hmem, hm⟩)
  · intro hdl
    have hmh2 : messageHandler env fs m
        = (fs,
           [MsgEmit.newMessage
             { chatId := chat.serializedId
               chatName := jsOr chat.name (jsOr (jsOr (jsOr ct.pushname ct.name) ct.number) "Unknown")
               contactNumber := jsOr chat.user chat.serializedId
               isGroup := chat.isGroup
               unreadCount := chat.unreadCount
               messageId := m.id
               hasMedia := m.hasMedia
               type := m.type
               body := m.body
               timestamp := m.timestamp
               sender := jsOr (jsOr (jsOr ct.pushname ct.name) ct.number) "Unknown"
               fileName := autoDownloadFileName env m
               mimeType := m.mimetype
               fileSize := m.size
               autoDownloaded := false
               localPath := "" }]) := by
      unfold messageHandler
      rw [hchat, hct]
      dsimp only
      rw [if_pos hm]
      rcases hdl with hdl | hdl <;> rw [hdl]
    refine ⟨by rw [hmh2], ?_⟩
    rw [hmh2]
    exact ⟨_, List.mem_singleton.mpr rfl, rfl, hm, rfl⟩

/-- Witness for C10 at the concrete media message `msgW2` (auto-download
succeeds in `envW`). -/
theorem C10_auto_download_witness :
    (messageHandler envW [] msgW2).1
      = dlPath envW msgW2.id (msgFileName envW msgW2) :: [] := by
  have h := C10_auto_download envW [] msgW2 chatW ⟨"AnnPush", "Ann", "111"⟩ mediaW
    rfl rfl rfl
  exact (h.2.1 (by decide)).1
